import Mathlib

/-!
Verification of the webhook ingestion and dispatch pipeline
(`services/webhook_service`): a shallow embedding of the dead-letter
queue, the event repository, the provider verifiers/normalizers and the
dispatcher, with theorems settling the specification claims.

Conventions of the embedding:
* instants are integers (seconds since some epoch); the store clock
  `now` is passed explicitly where the source calls `now()`;
* machine state (database rows) is explicit: a `DLQEntry` per event and a
  `Store` holding the `webhooks.events` rows;
* Python exceptions become `Except` errors; a function that cannot raise
  returns its value directly;
* cryptographic primitives (HMAC-SHA256 hex/base64) are parameters of the
  verifiers: every theorem quantifies over them, which is exactly what
  "independent of the signature value" means.
-/

/-! ## Dead-letter queue (`persistence/dlq.py`) -/

/-- A row of `webhooks.dead_letter_queue`, as read back by `_row_to_entry`.
`created_at`/`updated_at` are store-maintained and not modelled. -/
structure DLQEntry where
  id : Nat
  eventId : Nat
  errorMessage : String
  retryCount : Nat
  maxRetries : Nat
  nextRetryAt : Option Nat
  lastRetryAt : Option Nat
  status : String
  resolvedAt : Option Nat
  resolutionNote : Option String
deriving DecidableEq, Repr

/-- `DeadLetterQueue._increment_retry`: bump `retry_count`; when the new
count reaches `max_retries` the entry is abandoned and unscheduled,
otherwise it is rescheduled `2 ** new_retry_count` seconds from now. -/
def incrementRetry (now : Nat) (msg : String) (e : DLQEntry) : DLQEntry :=
  let newRetryCount := e.retryCount + 1
  if e.maxRetries ≤ newRetryCount then
    { e with
      status := "abandoned"
      errorMessage := msg
      retryCount := newRetryCount
      lastRetryAt := some now
      nextRetryAt := none }
  else
    { e with
      status := "pending"
      errorMessage := msg
      retryCount := newRetryCount
      lastRetryAt := some now
      nextRetryAt := some (now + 2 ^ newRetryCount) }

/-- `DeadLetterQueue.enqueue` for a fixed event: if no entry exists yet,
insert one with `retry_count = 0` scheduled one second from now;
otherwise `_increment_retry` the existing entry (whatever its status). -/
def dlqEnqueue (maxRetries eventId now : Nat) (msg : String) :
    Option DLQEntry → DLQEntry
  | none =>
    { id := 0
      eventId := eventId
      errorMessage := msg
      retryCount := 0
      maxRetries := maxRetries
      nextRetryAt := some (now + 1)
      lastRetryAt := none
      status := "pending"
      resolvedAt := none
      resolutionNote := none }
  | some e => incrementRetry now msg e

/-- The DLQ state of one event after a sequence of `enqueue` calls
(`(now, error_message)` pairs), starting from no entry. -/
def runEnqueues (maxRetries : Nat) (ops : List (Nat × String)) :
    Option DLQEntry :=
  ops.foldl (fun st p => some (dlqEnqueue maxRetries 0 p.1 p.2 st)) none

/-- `DeadLetterQueue.mark_retrying`. -/
def markRetrying (e : DLQEntry) : DLQEntry :=
  { e with status := "retrying" }

/-- `DeadLetterQueue.mark_resolved`: sets status, `resolved_at` and the
resolution note — and nothing else. -/
def markResolved (now : Nat) (note : Option String) (e : DLQEntry) :
    DLQEntry :=
  { e with
    status := "resolved"
    resolvedAt := some now
    resolutionNote := note }

/-- The row filter of `get_pending_retries`: status in
`{pending, retrying}` and `next_retry_at <= now()` (a SQL comparison, so
a null `next_retry_at` never qualifies). -/
def isReadyForRetry (now : Nat) (e : DLQEntry) : Bool :=
  (e.status == "pending" || e.status == "retrying") &&
    (match e.nextRetryAt with
     | some t => decide (t ≤ now)
     | none => false)

/-- Stable insertion into a sorted list (used to model SQL `ORDER BY`). -/
def insertSorted (le : DLQEntry → DLQEntry → Bool) (x : DLQEntry) :
    List DLQEntry → List DLQEntry
  | [] => [x]
  | y :: ys => if le x y then x :: y :: ys else y :: insertSorted le x ys

/-- Insertion sort (used to model SQL `ORDER BY`). -/
def sortEntries (le : DLQEntry → DLQEntry → Bool) :
    List DLQEntry → List DLQEntry
  | [] => []
  | x :: xs => insertSorted le x (sortEntries le xs)

/-- `DeadLetterQueue.get_pending_retries`: filter, order by
`next_retry_at` ascending, truncate to `limit`. -/
def getPendingRetries (now limit : Nat) (entries : List DLQEntry) :
    List DLQEntry :=
  (sortEntries
      (fun a b => decide (a.nextRetryAt.getD 0 ≤ b.nextRetryAt.getD 0))
      (entries.filter (isReadyForRetry now))).take limit

/-! ## JSON values (payloads are `dict[str, Any]` in the source) -/

/-- A JSON value. Numbers are modelled as integers (no payload field in
the verified code paths does float arithmetic). Objects are association
lists; `json.loads` never produces duplicate keys. -/
inductive Json where
  | null : Json
  | bool (b : Bool) : Json
  | num (n : Int) : Json
  | str (s : String) : Json
  | arr (elems : List Json) : Json
  | obj (fields : List (String × Json)) : Json

/-- Key lookup in a JSON object's fields. -/
def jlookup (fields : List (String × Json)) (k : String) : Option Json :=
  (fields.find? (fun p => p.1 == k)).map (·.2)

/-- Python errors that the modelled code can raise. `valueError` stands
for the `ValueError`/`OverflowError` pair `datetime.fromtimestamp`
raises on out-of-range timestamps. -/
inductive PyError where
  | unicodeDecodeError : PyError
  | attributeError : PyError
  | typeError : PyError
  | valueError : PyError
deriving DecidableEq, Repr

/-- Python truthiness of a JSON value (`None`, `False`, `0`, `""`, `[]`
and `\x7b\x7d` are falsy). -/
def pyTruthy : Json → Bool
  | .null => false
  | .bool b => b
  | .num n => n != 0
  | .str s => s != ""
  | .arr l => !l.isEmpty
  | .obj f => !f.isEmpty

/-- Python `a or b` on JSON values. -/
def pyOr (a b : Json) : Json :=
  if pyTruthy a then a else b

/-- Python `x.get(key, default)`: an `AttributeError` unless `x` is a
dict. -/
def pyDictGet (j : Json) (k : String) (dflt : Json) : Except PyError Json :=
  match j with
  | .obj fs => .ok ((jlookup fs k).getD dflt)
  | _ => .error .attributeError

/-- Total variant of `pyDictGet` (used only to state hypotheses about
well-shaped payloads; it agrees with `pyDictGet` on dicts). -/
def pyGetD (j : Json) (k : String) (dflt : Json) : Json :=
  match j with
  | .obj fs => (jlookup fs k).getD dflt
  | _ => dflt

/-- Whether a JSON value is an object (a Python dict). -/
def isObjD : Json → Bool
  | .obj _ => true
  | _ => false

/-- Whether a JSON value is a string. -/
def isStrD : Json → Bool
  | .str _ => true
  | _ => false

/-- Whether a JSON value is accepted by `_timestamp_to_iso` without
raising: null, a number within `datetime.fromtimestamp`'s supported
range (years 1-9999), or a Python bool (which is an int). -/
def tsOkD : Json → Bool
  | .null => true
  | .num n => decide (-62135596800 ≤ n) && decide (n ≤ 253402300799)
  | .bool _ => true
  | _ => false

/-! ## Event repository (`persistence/repository.py`) -/

/-- A row of `webhooks.events`, as read back by `_row_to_event`. -/
structure WebhookEvent where
  id : Nat
  provider : String
  externalId : Option String
  eventType : String
  rawPayload : Json
  normalizedPayload : Option Json
  status : String
  userIdentifier : Option String
  organizationId : Option String
  receivedAt : Nat
  processedAt : Option Nat
  errorMessage : Option String

/-- The `webhooks.events` table plus its id sequence. -/
structure Store where
  events : List WebhookEvent
  nextId : Nat

/-- `get_by_external_id`: the row with this `(provider, external_id)`
pair, when the external id is non-null. -/
def findByExternalId (s : Store) (provider : String) (externalId : String) :
    Option WebhookEvent :=
  s.events.find? (fun e =>
    e.provider == provider && e.externalId == some externalId)

/-- `get_by_id`. -/
def getById (s : Store) (eventId : Nat) : Option WebhookEvent :=
  s.events.find? (fun e => e.id == eventId)

/-- The row a successful insert produces: server-assigned id, status
`received`, `received_at = now()`, store defaults elsewhere. -/
def mkReceivedEvent (newId : Nat) (provider eventType : String) (raw : Json)
    (normalized : Option Json) (externalId userIdentifier organizationId :
    Option String) (now : Nat) : WebhookEvent :=
  { id := newId
    provider := provider
    externalId := externalId
    eventType := eventType
    rawPayload := raw
    normalizedPayload := normalized
    status := "received"
    userIdentifier := userIdentifier
    organizationId := organizationId
    receivedAt := now
    processedAt := none
    errorMessage := none }

/-- The raw `INSERT` into `webhooks.events`: the partial unique index
`unique_provider_external_id` on `(provider, external_id) where
external_id is not null` rejects a duplicate pair with a constraint
error naming the index. -/
def dbInsertEvent (s : Store) (provider eventType : String) (raw : Json)
    (normalized : Option Json) (externalId userIdentifier organizationId :
    Option String) (now : Nat) : Except String (Store × WebhookEvent) :=
  let dup := match externalId with
    | some x => (findByExternalId s provider x).isSome
    | none => false
  if dup then
    .error "duplicate key value violates unique constraint unique_provider_external_id"
  else
    let ev := mkReceivedEvent s.nextId provider eventType raw normalized
      externalId userIdentifier organizationId now
    .ok ({ events := s.events ++ [ev], nextId := s.nextId + 1 }, ev)

/-- Substring containment on character lists (Python's `pat in s`). -/
def containsSub (pat : List Char) : List Char → Bool
  | [] => pat.isEmpty
  | c :: rest => pat.isPrefixOf (c :: rest) || containsSub pat rest

/-- `WebhookEventRepository.create_event`: insert; when the insert fails
with an error mentioning `unique_provider_external_id`, look the existing
row up by `(provider, external_id)` and return it without inserting;
re-raise otherwise. -/
def createEvent (s : Store) (provider eventType : String) (raw : Json)
    (normalized : Option Json) (externalId userIdentifier organizationId :
    Option String) (now : Nat) : Except String (Store × WebhookEvent) :=
  match dbInsertEvent s provider eventType raw normalized externalId
      userIdentifier organizationId now with
  | .ok r => .ok r
  | .error e =>
    if containsSub "unique_provider_external_id".toList e.toList then
      match externalId with
      | some x =>
        match findByExternalId s provider x with
        | some existing => .ok (s, existing)
        | none => .error e
      | none => .error e
    else .error e

/-- `_update_status`: an unconditional `UPDATE ... SET status WHERE id`. -/
def updateStatus (s : Store) (eventId : Nat) (status : String) : Store :=
  { s with
    events := s.events.map (fun e =>
      if e.id == eventId then { e with status := status } else e) }

/-- `mark_processing`. -/
def markProcessing (s : Store) (eventId : Nat) : Store :=
  updateStatus s eventId "processing"

/-- `mark_processed`: sets `status` and `processed_at = now()`. -/
def markProcessed (s : Store) (eventId now : Nat) : Store :=
  { s with
    events := s.events.map (fun e =>
      if e.id == eventId then
        { e with status := "processed", processedAt := some now }
      else e) }

/-- `mark_failed`: sets `status` and `error_message`. -/
def markFailed (s : Store) (eventId : Nat) (msg : Option String) : Store :=
  { s with
    events := s.events.map (fun e =>
      if e.id == eventId then
        { e with status := "failed", errorMessage := msg }
      else e) }

/-- The invariant that survives any sequence of enqueues: the retry count
is bounded by `max_retries` unless the entry is abandoned, and an
abandoned entry is unscheduled. -/
def DLQInv (e : DLQEntry) : Prop :=
  (e.status = "abandoned" ∨ e.retryCount ≤ e.maxRetries) ∧
    (e.status = "abandoned" → e.nextRetryAt = none)

/-! ## Providers (`providers/stripe.py`, `providers/typeform.py`) -/

/-- Strict UTF-8 decoding of a byte list (RFC 3629, as Python's
`bytes.decode('utf-8')`): rejects continuation-byte leads, overlong
forms, surrogates and code points above `U+10FFFF`. The `fuel` argument
only drives structural recursion; `utf8DecodeChars` supplies enough for
the whole input, so the fuel-exhaustion branch is unreachable. -/
def utf8DecodeAux : Nat → List Nat → Option (List Char)
  | _, [] => some []
  | 0, _ :: _ => none
  | fuel + 1, b0 :: r0 =>
    if b0 ≤ 0x7F then
      (utf8DecodeAux fuel r0).map (fun cs => Char.ofNat b0 :: cs)
    else if b0 < 0xC2 then none
    else if b0 ≤ 0xDF then
      match r0 with
      | b1 :: r1 =>
        if 0x80 ≤ b1 ∧ b1 ≤ 0xBF then
          (utf8DecodeAux fuel r1).map (fun cs =>
            Char.ofNat ((b0 - 0xC0) * 0x40 + (b1 - 0x80)) :: cs)
        else none
      | [] => none
    else if b0 ≤ 0xEF then
      match r0 with
      | b1 :: b2 :: r2 =>
        if (if b0 = 0xE0 then 0xA0 else 0x80) ≤ b1 ∧
            b1 ≤ (if b0 = 0xED then 0x9F else 0xBF) ∧
            0x80 ≤ b2 ∧ b2 ≤ 0xBF then
          (utf8DecodeAux fuel r2).map (fun cs =>
            Char.ofNat ((b0 - 0xE0) * 0x1000 + (b1 - 0x80) * 0x40 +
              (b2 - 0x80)) :: cs)
        else none
      | _ => none
    else if b0 ≤ 0xF4 then
      match r0 with
      | b1 :: b2 :: b3 :: r3 =>
        if (if b0 = 0xF0 then 0x90 else 0x80) ≤ b1 ∧
            b1 ≤ (if b0 = 0xF4 then 0x8F else 0xBF) ∧
            0x80 ≤ b2 ∧ b2 ≤ 0xBF ∧ 0x80 ≤ b3 ∧ b3 ≤ 0xBF then
          (utf8DecodeAux fuel r3).map (fun cs =>
            Char.ofNat ((b0 - 0xF0) * 0x40000 + (b1 - 0x80) * 0x1000 +
              (b2 - 0x80) * 0x40 + (b3 - 0x80)) :: cs)
        else none
      | _ => none
    else none

/-- Decode a whole byte list as UTF-8. -/
def utf8DecodeChars (bs : List Nat) : Option (List Char) :=
  utf8DecodeAux bs.length bs

/-- `body.decode('utf-8')` as an optional string. -/
def utf8Decode (bs : List Nat) : Option String :=
  (utf8DecodeChars bs).map String.mk

/-- The whitespace stripped by Python's `str.strip()` (ASCII subset). -/
def pyIsSpace (c : Char) : Bool :=
  c = ' ' || c = '\t' || c = '\n' || c = '\r' ||
    c = Char.ofNat 0x0B || c = Char.ofNat 0x0C

/-- Python `s.strip()` on a character list. -/
def pyStripL (s : List Char) : List Char :=
  ((s.dropWhile pyIsSpace).reverse.dropWhile pyIsSpace).reverse

/-- Python `s.split(sep)` for a one-character separator. -/
def splitChar (sep : Char) : List Char → List (List Char)
  | [] => [[]]
  | c :: rest =>
    let r := splitChar sep rest
    if c = sep then [] :: r
    else
      match r with
      | [] => [[c]]
      | h :: t => (c :: h) :: t

/-- Python `s.split(sep, 1)` for a one-character separator: the parts
before and after the first occurrence, or `none` when `sep` is absent
(the caller skips such items). -/
def splitFirstAt (sep : Char) : List Char → Option (List Char × List Char)
  | [] => none
  | c :: rest =>
    if c = sep then some ([], rest)
    else (splitFirstAt sep rest).map (fun p => (c :: p.1, p.2))

/-- Python `int(s)` restricted to decimal literals: optional surrounding
whitespace, an optional sign, then one or more digits. (Python also
accepts underscore digit grouping; the verified code paths never rely on
it.) Returns `none` where Python raises `ValueError`. -/
def pyInt (s : String) : Option Int :=
  let digitsVal (ds : List Char) : Option Int :=
    if ds ≠ [] ∧ ds.all Char.isDigit then
      some (ds.foldl (fun a c => a * 10 + ((c.toNat - '0'.toNat : Nat) : Int)) 0)
    else none
  match pyStripL s.toList with
  | '-' :: ds => (digitsVal ds).map (fun v => -v)
  | '+' :: ds => digitsVal ds
  | ds => digitsVal ds

/-- Python falsiness of an optional string (`None` and `""`). -/
def optFalsy : Option String → Bool
  | none => true
  | some s => s == ""

/-- Whether every character of a string is ASCII. -/
def isAsciiStr (s : String) : Bool :=
  s.toList.all (fun c => c.toNat ≤ 0x7F)

/-- CPython's `hmac.compare_digest` on `str` arguments: constant-time
equality, but it raises a `TypeError` when either argument contains a
non-ASCII character (and HTTP header values decoded as latin-1 can). -/
def pyCompareDigest (a b : String) : Except PyError Bool :=
  if isAsciiStr a && isAsciiStr b then .ok (a == b)
  else .error .typeError

/-- `any(hmac.compare_digest(expected, sig) for sig in signatures)`:
lazy, stops at the first match, raises at the first non-ASCII pair. -/
def anyCompareDigest (expected : String) :
    List String → Except PyError Bool
  | [] => .ok false
  | sg :: rest => do
    let b ← pyCompareDigest expected sg
    if b then .ok true else anyCompareDigest expected rest

/-- `StripeProvider._parse_signature_header`: split on `,`; skip items
without `=`; split each item at the first `=`; strip both halves; the
last `t` wins and every `v1` is collected in order. -/
def parseSigHeader (header : String) : Option String × List String :=
  (splitChar ',' header.toList).foldl
    (fun acc item =>
      match splitFirstAt '=' item with
      | none => acc
      | some (k, v) =>
        let key := String.mk (pyStripL k)
        let value := String.mk (pyStripL v)
        if key = "t" then (some value, acc.2)
        else if key = "v1" then (acc.1, acc.2 ++ [value])
        else acc)
    (none, [])

/-- `StripeProvider.verify_signature`. `hmacSha256Hex secret message` is
the hex HMAC-SHA256 digest, kept abstract: every theorem quantifies over
it. `now` is `int(time.time())`. An `Except` error is a raised
exception. -/
def stripeVerify (hmacSha256Hex : String → String → String) (now : Int)
    (sigHeader : Option String) (secret : Option String)
    (body : List Nat) : Except PyError Bool :=
  if optFalsy sigHeader || optFalsy secret then .ok false
  else if optFalsy (parseSigHeader (sigHeader.getD "")).1 ||
      (parseSigHeader (sigHeader.getD "")).2.isEmpty then .ok false
  else
    match pyInt ((parseSigHeader (sigHeader.getD "")).1.getD "") with
    | none => .ok false
    | some tv =>
      if 300 < (now - tv).natAbs then .ok false
      else
        match utf8Decode body with
        | none => .error .unicodeDecodeError
        | some bodyStr =>
          anyCompareDigest
            (hmacSha256Hex (secret.getD "")
              ((parseSigHeader (sigHeader.getD "")).1.getD "" ++ "." ++
                bodyStr))
            (parseSigHeader (sigHeader.getD "")).2

/-- `TypeformProvider.verify_signature`. `hmacSha256B64 secret body` is
the base64 HMAC-SHA256 digest of the raw body bytes, kept abstract. The
final `hmac.compare_digest(signature, expected)` raises on a non-ASCII
signature header, so the function is not total. -/
def typeformVerify (hmacSha256B64 : String → List Nat → String)
    (sigHeader : Option String) (secret : Option String)
    (body : List Nat) : Except PyError Bool :=
  if optFalsy sigHeader || optFalsy secret then .ok false
  else
    pyCompareDigest (sigHeader.getD "")
      ("sha256=" ++ hmacSha256B64 (secret.getD "") body)

/-- Left-pad a number with zeros to the given width. -/
def padNum (width n : Nat) : String :=
  let s := toString n
  String.mk (List.replicate (width - s.length) '0') ++ s

/-- `datetime.fromtimestamp(n, tz=UTC).isoformat()` for a whole-second
epoch value: proleptic-Gregorian civil date plus a `+00:00` offset
(microseconds are zero and therefore omitted by `isoformat`). -/
def epochToIso (n : Int) : String :=
  let days := n.fdiv 86400
  let secs := (n - days * 86400).toNat
  let z := days + 719468
  let era := z.fdiv 146097
  let doe := (z - era * 146097).toNat
  let yoe := (doe - doe / 1460 + doe / 36524 - doe / 146096) / 365
  let doy := doe - (365 * yoe + yoe / 4 - yoe / 100)
  let mp := (5 * doy + 2) / 153
  let d := doy - (153 * mp + 2) / 5 + 1
  let m := if mp < 10 then mp + 3 else mp - 9
  let y : Int := (yoe : Int) + era * 400 + (if m ≤ 2 then 1 else 0)
  padNum 4 y.toNat ++ "-" ++ padNum 2 m ++ "-" ++ padNum 2 d ++ "T" ++
    padNum 2 (secs / 3600) ++ ":" ++ padNum 2 (secs % 3600 / 60) ++ ":" ++
    padNum 2 (secs % 60) ++ "+00:00"

/-- `StripeProvider._timestamp_to_iso` applied to whatever
`raw_payload.get("created")` returned: `None` stays `None`; a number
within `datetime`'s supported range (years 1-9999, i.e. epoch seconds
-62135596800..253402300799) is converted while an out-of-range number
raises (`ValueError`/`OverflowError`, modelled as `valueError`); a
Python `bool` is an `int` and converts too; anything else makes
`datetime.fromtimestamp` raise a `TypeError`. -/
def tsToIso : Json → Except PyError Json
  | .null => .ok .null
  | .num n =>
    if -62135596800 ≤ n ∧ n ≤ 253402300799 then .ok (.str (epochToIso n))
    else .error .valueError
  | .bool b => .ok (.str (epochToIso (if b then 1 else 0)))
  | _ => .error .typeError

/-- Coerce to a string receiver; Python raises `AttributeError` when a
string method such as `startswith` is used on a non-string. -/
def pyAsStr : Json → Except PyError String
  | .str s => .ok s
  | _ => .error .attributeError

/-- Python `s.startswith(prefix)`. -/
def pyStartsWith (s pre : String) : Bool :=
  pre.toList.isPrefixOf s.toList

/-- `TypeformProvider.normalize_event`, in the source's evaluation
order. -/
def normalizeTypeform (raw : List (String × Json)) : Except PyError Json := do
  let formResponse := (jlookup raw "form_response").getD (.obj [])
  let hidden ← pyDictGet formResponse "hidden" (.obj [])
  let orgId := pyOr (← pyDictGet hidden "org_id" .null)
    (← pyDictGet hidden "organization_id" .null)
  let userIdentifier := pyOr (← pyDictGet hidden "user_id" .null)
    (← pyDictGet hidden "email" .null)
  return .obj
    [("source", .str "typeform"),
     ("event_type", .str "form_submission"),
     ("external_id", (jlookup raw "event_id").getD .null),
     ("resource_id", ← pyDictGet formResponse "form_id" .null),
     ("occurred_at", ← pyDictGet formResponse "submitted_at" .null),
     ("user_identifier", userIdentifier),
     ("organization_id", orgId),
     ("metadata", .obj
       [("enrollment_id", ← pyDictGet hidden "enrollment_id" .null),
        ("journey_id", ← pyDictGet hidden "journey_id" .null),
        ("step_id", ← pyDictGet hidden "step_id" .null),
        ("response_token", ← pyDictGet formResponse "token" .null),
        ("form_id", ← pyDictGet formResponse "form_id" .null)])]

/-- `StripeProvider.normalize_event`, in the source's evaluation order:
`data.object` and `metadata` are fetched up front, the canonical dict is
then built field by field (`occurred_at` converts `created` before the
`metadata` sub-dict evaluates `event_type.startswith`). -/
def normalizeStripe (raw : List (String × Json)) : Except PyError Json := do
  let eventType := (jlookup raw "type").getD (.str "unknown")
  let dataObject ← pyDictGet ((jlookup raw "data").getD (.obj []))
    "object" (.obj [])
  let metadata ← pyDictGet dataObject "metadata" (.obj [])
  let customerEmail := pyOr (← pyDictGet dataObject "receipt_email" .null)
    (← pyDictGet dataObject "customer_email" .null)
  let resourceId ← pyDictGet dataObject "id" .null
  let occurredAt ← tsToIso ((jlookup raw "created").getD .null)
  let userIdentifier := pyOr (← pyDictGet metadata "user_id" .null)
    customerEmail
  let orgId := pyOr (← pyDictGet metadata "org_id" .null)
    (← pyDictGet metadata "organization_id" .null)
  let customerId ← pyDictGet dataObject "customer" .null
  let amount ← pyDictGet dataObject "amount" .null
  let currency ← pyDictGet dataObject "currency" .null
  let statusJ ← pyDictGet dataObject "status" .null
  let enrollmentId ← pyDictGet metadata "enrollment_id" .null
  let journeyId ← pyDictGet metadata "journey_id" .null
  let stepId ← pyDictGet metadata "step_id" .null
  let etStr ← pyAsStr eventType
  return .obj
    [("source", .str "stripe"),
     ("event_type", eventType),
     ("external_id", (jlookup raw "id").getD .null),
     ("resource_id", resourceId),
     ("occurred_at", occurredAt),
     ("user_identifier", userIdentifier),
     ("organization_id", orgId),
     ("metadata", .obj
       [("customer_id", customerId),
        ("amount", amount),
        ("currency", currency),
        ("status", statusJ),
        ("enrollment_id", enrollmentId),
        ("journey_id", journeyId),
        ("step_id", stepId),
        ("payment_intent_id",
          if pyStartsWith etStr "payment_intent" then resourceId else .null),
        ("subscription_id",
          if pyStartsWith etStr "customer.subscription" then resourceId
          else .null),
        ("invoice_id",
          if pyStartsWith etStr "invoice" then resourceId else .null)])]

/-! ## Dispatcher (`pipeline/ingestion.py`) -/

/-- `WebhookSettings.JOURNEY_SERVICE_URL`: the environment value when
set, else the pydantic default. -/
def loadJourneyUrl (env : Option String) : String :=
  env.getD "http://localhost:8002"

/-- `_dispatch_to_journey_service`: an unset/empty URL skips the outbound
call and returns successfully; otherwise one HTTP POST happens and any
non-2xx raises. `httpOk i` abstracts the downstream's answer to the
`i`-th call; the second component counts outbound calls. -/
def dispatchToJourney (url : String) (httpOk : Nat → Bool) (callIdx : Nat) :
    Bool × Nat :=
  if url == "" then (true, 0) else (httpOk callIdx, 1)

/-- The in-process attempt loop of `_dispatch_with_retry` (backoff sleeps
are not modelled; they do not change the outcome). Returns
`(success, outbound calls, attempts used)`. -/
def attemptLoop (url : String) (httpOk : Nat → Bool) :
    Nat → Nat → Nat → Bool × Nat × Nat
  | 0, _, calls => (false, calls, 0)
  | fuel + 1, attempt, calls =>
    let r := dispatchToJourney url httpOk attempt
    if r.1 then (true, calls + r.2, 1)
    else
      let rest := attemptLoop url httpOk fuel (attempt + 1) (calls + r.2)
      (rest.1, rest.2.1, rest.2.2 + 1)

/-- The outcome of one `_dispatch_with_retry` task. -/
structure DispatchOutcome where
  store : Store
  dlq : Option DLQEntry
  downstreamCalls : Nat
  attemptsUsed : Nat

/-- `_dispatch_with_retry`: mark processing, try up to
`RETRY_MAX_ATTEMPTS` dispatches, then either mark processed, or mark
failed and (when the DLQ is enabled) enqueue. -/
def dispatchWithRetry (url : String) (httpOk : Nat → Bool)
    (maxAttempts : Nat) (dlqEnabled : Bool) (dlqMaxRetries : Nat)
    (s : Store) (d : Option DLQEntry) (eventId now : Nat)
    (errMsg : String) : DispatchOutcome :=
  let s1 := markProcessing s eventId
  let r := attemptLoop url httpOk maxAttempts 0 0
  if r.1 then
    { store := markProcessed s1 eventId now
      dlq := d
      downstreamCalls := r.2.1
      attemptsUsed := r.2.2 }
  else
    { store := markFailed s1 eventId (some errMsg)
      dlq := if dlqEnabled then
          some (dlqEnqueue dlqMaxRetries eventId now errMsg d)
        else d
      downstreamCalls := r.2.1
      attemptsUsed := r.2.2 }

/-! ## Concrete fixtures used by witnesses and counterexamples -/

/-- A DLQ entry fresh from its first enqueue (`retry_count = 0` of 3). -/
def entryAt0of3 : DLQEntry :=
  { id := 0, eventId := 7, errorMessage := "timeout", retryCount := 0,
    maxRetries := 3, nextRetryAt := some 1, lastRetryAt := none,
    status := "pending", resolvedAt := none, resolutionNote := none }

/-- A DLQ entry at `retry_count = 2` of 3, one increment from abandonment. -/
def entryAt2of3 : DLQEntry :=
  { id := 0, eventId := 7, errorMessage := "timeout", retryCount := 2,
    maxRetries := 3, nextRetryAt := some 8, lastRetryAt := some 4,
    status := "pending", resolvedAt := none, resolutionNote := none }

/-- An abandoned DLQ entry (`retry_count = max_retries = 3`). -/
def entryAbandoned : DLQEntry :=
  { id := 0, eventId := 7, errorMessage := "timeout", retryCount := 3,
    maxRetries := 3, nextRetryAt := none, lastRetryAt := some 9,
    status := "abandoned", resolvedAt := none, resolutionNote := none }

/-- A pending DLQ entry already due for retry. -/
def entryDue : DLQEntry :=
  { id := 0, eventId := 7, errorMessage := "timeout", retryCount := 1,
    maxRetries := 3, nextRetryAt := some 3, lastRetryAt := some 1,
    status := "pending", resolvedAt := none, resolutionNote := none }

/-- A stored event in status `received`. -/
def demoEvent : WebhookEvent :=
  { id := 1, provider := "typeform", externalId := some "e-1",
    eventType := "form_submission", rawPayload := .null,
    normalizedPayload := none, status := "received", userIdentifier := none,
    organizationId := none, receivedAt := 3, processedAt := none,
    errorMessage := none }

/-- A store holding just `demoEvent`. -/
def demoStore : Store := { events := [demoEvent], nextId := 2 }

/-- A store whose one event has already been processed. -/
def procStore : Store :=
  { events := [{ demoEvent with status := "processed", processedAt := some 6 }],
    nextId := 2 }

/-- The canonical event `TypeformProvider.normalize_event` produces from
an empty payload: every extracted field is null. -/
def typeformNullEvent : Json :=
  .obj [("source", .str "typeform"), ("event_type", .str "form_submission"),
        ("external_id", .null), ("resource_id", .null), ("occurred_at", .null),
        ("user_identifier", .null), ("organization_id", .null),
        ("metadata", .obj [("enrollment_id", .null), ("journey_id", .null),
          ("step_id", .null), ("response_token", .null), ("form_id", .null)])]

/-- The canonical event `StripeProvider.normalize_event` produces from an
empty payload: every extracted field is null except the `unknown` event
type. -/
def stripeNullEvent : Json :=
  .obj [("source", .str "stripe"), ("event_type", .str "unknown"),
        ("external_id", .null), ("resource_id", .null), ("occurred_at", .null),
        ("user_identifier", .null), ("organization_id", .null),
        ("metadata", .obj [("customer_id", .null), ("amount", .null),
          ("currency", .null), ("status", .null), ("enrollment_id", .null),
          ("journey_id", .null), ("step_id", .null),
          ("payment_intent_id", .null), ("subscription_id", .null),
          ("invoice_id", .null)])]

/-- A well-shaped typeform payload with a hidden user id. -/
def typeformDemoPayload : List (String × Json) :=
  [("event_id", .str "e-1"),
   ("form_response", .obj
     [("form_id", .str "f-9"),
      ("hidden", .obj [("user_id", .str "u-1"), ("org_id", .str "o-1")])])]

/-- A well-shaped stripe payload for a payment intent. -/
def stripeDemoPayload : List (String × Json) :=
  [("id", .str "evt_1"), ("type", .str "payment_intent.succeeded"),
   ("created", .num 1735689600),
   ("data", .obj [("object", .obj
     [("id", .str "pi_1"), ("amount", .num 500), ("currency", .str "usd"),
      ("metadata", .obj [("user_id", .str "u-1")])])])]

/-! ## Helper lemmas -/

theorem mem_insertSorted (le : DLQEntry → DLQEntry → Bool) (x a : DLQEntry) :
    ∀ (l : List DLQEntry), a ∈ insertSorted le x l → a = x ∨ a ∈ l := by
  intro l
  induction l with
  | nil =>
    intro h
    simpa [insertSorted] using h
  | cons y ys ih =>
    intro h
    simp only [insertSorted] at h
    split at h
    · exact List.mem_cons.mp h
    · rcases List.mem_cons.mp h with h' | h'
      · exact Or.inr (List.mem_cons.mpr (Or.inl h'))
      · rcases ih h' with h'' | h''
        · exact Or.inl h''
        · exact Or.inr (List.mem_cons.mpr (Or.inr h''))

theorem mem_sortEntries (le : DLQEntry → DLQEntry → Bool) (a : DLQEntry) :
    ∀ (l : List DLQEntry), a ∈ sortEntries le l → a ∈ l := by
  intro l
  induction l with
  | nil =>
    intro h
    simp [sortEntries] at h
  | cons y ys ih =>
    intro h
    simp only [sortEntries] at h
    rcases mem_insertSorted le y a _ h with h' | h'
    · exact List.mem_cons.mpr (Or.inl h')
    · exact List.mem_cons.mpr (Or.inr (ih h'))

theorem dlqEnqueue_inv (maxRetries eventId now : Nat) (msg : String)
    (st : Option DLQEntry) : DLQInv (dlqEnqueue maxRetries eventId now msg st) := by
  cases st with
  | none =>
    refine ⟨Or.inr (Nat.zero_le _), ?_⟩
    intro h
    simp [dlqEnqueue] at h
  | some e =>
    simp only [dlqEnqueue, incrementRetry]
    by_cases h : e.maxRetries ≤ e.retryCount + 1
    · simp [h, DLQInv]
    · simp [h, DLQInv]
      omega

theorem foldl_enqueue_inv (maxRetries : Nat) (ops : List (Nat × String)) :
    ∀ (st : Option DLQEntry), (∀ x, st = some x → DLQInv x) →
      ∀ e, ops.foldl (fun st p => some (dlqEnqueue maxRetries 0 p.1 p.2 st)) st = some e →
      DLQInv e := by
  induction ops with
  | nil =>
    intro st hst e hfold
    exact hst e hfold
  | cons p rest ih =>
    intro st _ e hfold
    exact ih (some (dlqEnqueue maxRetries 0 p.1 p.2 st))
      (by intro x hx; cases hx; exact dlqEnqueue_inv ..) e hfold

theorem runEnqueues_inv (maxRetries : Nat) (ops : List (Nat × String))
    (e : DLQEntry) (h : runEnqueues maxRetries ops = some e) : DLQInv e :=
  foldl_enqueue_inv maxRetries ops none (by intro x hx; cases hx) e h

theorem find_map_update (eventId : Nat) (st : String) (e : WebhookEvent)
    (l : List WebhookEvent)
    (h : l.find? (fun x => x.id == eventId) = some e) :
    (l.map (fun x => if x.id == eventId then { x with status := st } else x)).find?
        (fun x => x.id == eventId) = some { e with status := st } := by
  have hpf : ((fun x => x.id == eventId) ∘
      fun x => if x.id == eventId then { x with status := st } else x) =
      (fun x : WebhookEvent => x.id == eventId) := by
    funext x
    by_cases hx : (x.id == eventId) = true
    · simp only [beq_iff_eq] at hx
      simp [hx]
    · simp only [beq_iff_eq] at hx
      simp [hx]
  rw [List.find?_map, hpf, h]
  have hpe : (e.id == eventId) = true :=
    @List.find?_some WebhookEvent (fun x => x.id == eventId) e l h
  simp only [beq_iff_eq] at hpe
  simp [hpe]

/-! ## Claims -/

/-- Claim C1 is false as stated: with `max_retries = 3`, a fifth enqueue
(one more after the entry was abandoned) pushes `retry_count` to 4,
exceeding `max_retries`; `enqueue` increments unconditionally even on an
abandoned entry. -/
theorem C1_counterexample :
    (runEnqueues 3 [(0, "e"), (1, "e"), (2, "e"), (3, "e"), (4, "f")]).map
        (fun e => (e.retryCount, e.maxRetries, e.status)) =
      some (4, 3, "abandoned") ∧
    ¬ (4 ≤ 3) := ⟨rfl, by decide⟩

/-- Claim C1 (amended): after any sequence of enqueue calls,
`retry_count ≤ max_retries` holds unless the entry is already abandoned
(further enqueues on an abandoned entry push `retry_count` beyond the
bound while keeping it abandoned and unscheduled); and the increment
that reaches `max_retries` abandons the entry, nulls `next_retry_at`,
and schedules no further retry. -/
theorem C1_retry_bound :
    (∀ (maxRetries : Nat) (ops : List (Nat × String)) (e : DLQEntry),
       runEnqueues maxRetries ops = some e →
       (e.status = "abandoned" ∨ e.retryCount ≤ e.maxRetries) ∧
       (e.status = "abandoned" → e.nextRetryAt = none)) ∧
    (∀ (now : Nat) (msg : String) (e : DLQEntry),
       e.maxRetries ≤ e.retryCount + 1 →
       (incrementRetry now msg e).status = "abandoned" ∧
       (incrementRetry now msg e).nextRetryAt = none) := by
  constructor
  · intro maxRetries ops e h
    exact runEnqueues_inv maxRetries ops e h
  · intro now msg e h
    simp [incrementRetry, h]

theorem C1_retry_bound_witness :
    ((dlqEnqueue 3 7 0 "e" none).status = "abandoned" ∨
      (dlqEnqueue 3 7 0 "e" none).retryCount ≤
        (dlqEnqueue 3 7 0 "e" none).maxRetries) ∧
    (incrementRetry 9 "m" entryAt2of3).status = "abandoned" :=
  ⟨(C1_retry_bound.1 3 [(0, "e")]
      (dlqEnqueue 3 0 0 "e" none) rfl).1,
   (C1_retry_bound.2 9 "m" entryAt2of3 (by decide)).1⟩

/-- Claim C2: `create_event` is idempotent on `(provider, external_id)`:
a duplicate non-null external id returns the stored row without
inserting and without a caller-visible error; otherwise a new row is
inserted with status `received`. -/
theorem C2_create_event_idempotent :
    ∀ (s : Store) (provider eventType : String) (raw : Json)
      (normalized : Option Json)
      (externalId userIdentifier organizationId : Option String) (now : Nat),
    (∀ x e, externalId = some x → findByExternalId s provider x = some e →
       createEvent s provider eventType raw normalized externalId
         userIdentifier organizationId now = .ok (s, e)) ∧
    ((match externalId with
      | some x => findByExternalId s provider x = none
      | none => True) →
      createEvent s provider eventType raw normalized externalId
          userIdentifier organizationId now =
        .ok ({ events := s.events ++ [mkReceivedEvent s.nextId provider
                eventType raw normalized externalId userIdentifier
                organizationId now],
               nextId := s.nextId + 1 },
             mkReceivedEvent s.nextId provider eventType raw normalized
               externalId userIdentifier organizationId now) ∧
        (mkReceivedEvent s.nextId provider eventType raw normalized
            externalId userIdentifier organizationId now).status =
          "received") := by
  intro s provider eventType raw normalized externalId userIdentifier
    organizationId now
  constructor
  · intro x e hx hfind
    subst hx
    simp only [createEvent, dbInsertEvent, hfind]
    rfl
  · intro hno
    cases externalId with
    | none =>
      exact ⟨rfl, rfl⟩
    | some x =>
      have hno' : findByExternalId s provider x = none := hno
      refine ⟨?_, rfl⟩
      simp only [createEvent, dbInsertEvent, hno']
      rfl

theorem C2_create_event_idempotent_witness :
    createEvent demoStore "typeform" "form_submission" Json.null none
      (some "e-1") none none 5 = .ok (demoStore, demoEvent) :=
  (C2_create_event_idempotent demoStore "typeform" "form_submission"
      Json.null none (some "e-1") none none 5).1 "e-1" demoEvent rfl rfl

/-- Claim C3 is false as stated: `mark_processing` on a `processed` event
does not fail loudly; the unconditional `_update_status` silently moves
the status back to `processing` (the operation's type has no error
outcome at all). -/
theorem C3_counterexample :
    (getById procStore 1).map (fun e => e.status) = some "processed" ∧
    (getById (markProcessing procStore 1) 1).map (fun e => e.status) =
      some "processing" := ⟨rfl, rfl⟩

/-- Claim C3 (amended): `mark_processing` performs an unconditional
status update with no transition check and no error: whatever the stored
status — including `processed` — the event silently becomes
`processing`. -/
theorem C3_mark_processing_unconditional :
    ∀ (s : Store) (eventId : Nat) (e : WebhookEvent),
      getById s eventId = some e →
      getById (markProcessing s eventId) eventId =
        some { e with status := "processing" } := by
  intro s eventId e h
  exact find_map_update eventId "processing" e s.events h

theorem C3_mark_processing_unconditional_witness :
    getById (markProcessing procStore 1) 1 =
      some { demoEvent with status := "processing", processedAt := some 6 } :=
  C3_mark_processing_unconditional procStore 1
    { demoEvent with status := "processed", processedAt := some 6 } rfl

/-- Claim C4 is false as stated: enqueue of an already-abandoned entry is
not a no-op — the fifth enqueue below increments `retry_count` from 3 to
4 and rewrites `error_message`, though the entry stays abandoned. -/
theorem C4_counterexample :
    (runEnqueues 3 [(0, "e"), (1, "e"), (2, "e"), (3, "e")]).map
        (fun e => (e.status, e.retryCount, e.errorMessage)) =
      some ("abandoned", 3, "e") ∧
    (runEnqueues 3 [(0, "e"), (1, "e"), (2, "e"), (3, "e"), (4, "f")]).map
        (fun e => (e.status, e.retryCount, e.errorMessage)) =
      some ("abandoned", 4, "f") ∧
    ¬ ((3 : Nat) = 4) := ⟨rfl, rfl, by decide⟩

/-- Claim C4 (amended): abandoned entries are never returned by
`get_pending_retries`, and `enqueue` cannot move an abandoned entry back
to pending — it stays abandoned with a null `next_retry_at` — but the
call is not a no-op: it still increments `retry_count` and rewrites
`error_message` and `last_retry_at`. -/
theorem C4_abandoned_terminal :
    (∀ (now limit : Nat) (entries : List DLQEntry) (e : DLQEntry),
       e ∈ getPendingRetries now limit entries → e.status ≠ "abandoned") ∧
    (∀ (maxRetries eventId now : Nat) (msg : String) (e : DLQEntry),
       e.status = "abandoned" → e.maxRetries ≤ e.retryCount →
       (dlqEnqueue maxRetries eventId now msg (some e)).status = "abandoned" ∧
       (dlqEnqueue maxRetries eventId now msg (some e)).nextRetryAt = none ∧
       (dlqEnqueue maxRetries eventId now msg (some e)).retryCount =
         e.retryCount + 1 ∧
       (dlqEnqueue maxRetries eventId now msg (some e)).errorMessage = msg ∧
       (dlqEnqueue maxRetries eventId now msg (some e)).lastRetryAt =
         some now) := by
  constructor
  · intro now limit entries e hmem habs
    have h1 := List.mem_of_mem_take hmem
    have h2 := mem_sortEntries _ e _ h1
    have h3 := (List.mem_filter.mp h2).2
    simp [isReadyForRetry, habs] at h3
  · intro maxRetries eventId now msg e _ hle
    have hcond : e.maxRetries ≤ e.retryCount + 1 := Nat.le_succ_of_le hle
    simp [dlqEnqueue, incrementRetry, hcond]

theorem C4_abandoned_terminal_witness :
    entryDue.status ≠ "abandoned" ∧
    (dlqEnqueue 3 7 11 "g" (some entryAbandoned)).status = "abandoned" :=
  ⟨C4_abandoned_terminal.1 5 10 [entryDue] entryDue (by decide),
   (C4_abandoned_terminal.2 3 7 11 "g" entryAbandoned rfl
      (by decide)).1⟩

/-- Claim C5 is false as stated: `mark_resolved` sets the terminal
status `resolved` but leaves `next_retry_at` untouched, so a resolved
entry can keep a non-null `next_retry_at` (here one obtained from a real
first enqueue, scheduled at 4 + 1 = 5). -/
theorem C5_counterexample :
    (runEnqueues 3 [(4, "boom")]).map
        (fun e => ((markResolved 9 (some "ok") e).status,
                   (markResolved 9 (some "ok") e).nextRetryAt)) =
      some ("resolved", some 5) ∧
    ¬ ((some 5 : Option Nat) = none) := ⟨rfl, by decide⟩

/-- Claim C5 (amended): the abandonment path does null `next_retry_at`,
but `mark_resolved` only sets `status`, `resolved_at` and the note,
leaving `next_retry_at` exactly as it was — the terminal-null invariant
holds for `abandoned` and fails for `resolved`. -/
theorem C5_terminal_next_retry :
    (∀ (now : Nat) (msg : String) (e : DLQEntry),
       e.maxRetries ≤ e.retryCount + 1 →
       (incrementRetry now msg e).status = "abandoned" ∧
       (incrementRetry now msg e).nextRetryAt = none) ∧
    (∀ (now : Nat) (note : Option String) (e : DLQEntry),
       (markResolved now note e).status = "resolved" ∧
       (markResolved now note e).nextRetryAt = e.nextRetryAt ∧
       (markResolved now note e).resolvedAt = some now) := by
  constructor
  · intro now msg e h
    simp [incrementRetry, h]
  · intro now note e
    exact ⟨rfl, rfl, rfl⟩

theorem C5_terminal_next_retry_witness :
    (incrementRetry 9 "m" entryAt2of3).nextRetryAt = none ∧
    (markResolved 9 (some "ok") entryDue).status = "resolved" :=
  ⟨(C5_terminal_next_retry.1 9 "m" entryAt2of3 (by decide)).2,
   (C5_terminal_next_retry.2 9 (some "ok") entryDue).1⟩

/-- Claim C6 is false as stated: the DLQ backoff has no `MAX_DELAY` cap.
After seven enqueues (`max_retries = 8`) the sixth retry is scheduled
2^6 = 64 seconds out, where the claimed `min(2^6, 60)` is 60. -/
theorem C6_counterexample :
    (runEnqueues 8 [(0, "e"), (0, "e"), (0, "e"), (0, "e"), (0, "e"),
        (0, "e"), (0, "e")]).map (fun e => e.nextRetryAt) =
      some (some 64) ∧
    ¬ ((64 : Nat) = min (2 ^ 6) 60) := ⟨rfl, by decide⟩

/-- Claim C6 (amended): the first enqueue schedules `next_retry_at` one
second out, and the Nth retry (the increment that sets
`retry_count = N`) schedules it `2 ^ N` seconds out with no cap — the
60-second `MAX_DELAY` cap exists only in the dispatcher's in-process
sleeps, not in the DLQ schedule. -/
theorem C6_backoff_schedule :
    (∀ (maxRetries eventId now : Nat) (msg : String),
       (dlqEnqueue maxRetries eventId now msg none).nextRetryAt =
         some (now + 1)) ∧
    (∀ (now : Nat) (msg : String) (e : DLQEntry),
       e.retryCount + 1 < e.maxRetries →
       (incrementRetry now msg e).nextRetryAt =
         some (now + 2 ^ (e.retryCount + 1))) := by
  constructor
  · intro maxRetries eventId now msg
    rfl
  · intro now msg e h
    have h' : ¬ e.maxRetries ≤ e.retryCount + 1 := by omega
    simp [incrementRetry, h']

theorem C6_backoff_schedule_witness :
    (dlqEnqueue 3 7 5 "e" none).nextRetryAt = some 6 ∧
    (incrementRetry 5 "e" entryAt0of3).nextRetryAt = some 7 :=
  ⟨C6_backoff_schedule.1 3 7 5 "e",
   C6_backoff_schedule.2 5 "e" entryAt0of3 (by decide)⟩

theorem exceptBind_ok {α β : Type} (v : α) (f : α → Except PyError β) :
    (Except.ok v >>= f) = f v := rfl

theorem anyCompareDigest_ok (expected : String) (l : List String)
    (hexp : isAsciiStr expected = true)
    (hl : ∀ sg ∈ l, isAsciiStr sg = true) :
    ∃ b, anyCompareDigest expected l = .ok b := by
  induction l with
  | nil => exact ⟨false, rfl⟩
  | cons sg rest ih =>
    have hs : isAsciiStr sg = true := hl sg (List.mem_cons_self sg rest)
    obtain ⟨b, hb⟩ := ih (fun x hx => hl x (List.mem_cons_of_mem sg hx))
    by_cases he : (expected == sg) = true
    · refine ⟨true, ?_⟩
      simp [anyCompareDigest, pyCompareDigest, hexp, hs, exceptBind_ok, he]
    · refine ⟨b, ?_⟩
      simp [anyCompareDigest, pyCompareDigest, hexp, hs, exceptBind_ok,
        he, hb]

/-- Claim C7 is false as stated: stripe's `verify_signature` raises a
`UnicodeDecodeError` on a non-UTF-8 body when the header and secret are
present and the timestamp is within tolerance, and both providers'
`hmac.compare_digest` raises a `TypeError` when the signature string
(reachable via latin-1 header decoding) contains a non-ASCII character
— verification does not return a boolean for every input. -/
theorem C7_counterexample :
    stripeVerify (fun _ _ => "") 0 (some "t=0,v1=abc") (some "s") [255] =
      .error .unicodeDecodeError ∧
    typeformVerify (fun _ _ => "x") (some "sha256=é") (some "s") [] =
      .error .typeError ∧
    stripeVerify (fun _ _ => "ff") 0 (some "t=0,v1=é") (some "s") [104] =
      .error .typeError := ⟨rfl, rfl, rfl⟩

/-- Claim C7 (amended): both verifiers return false (without raising)
whenever the signature header or the secret is absent or empty, and
stripe additionally returns false on malformed headers and non-numeric
or stale timestamps; but neither verifier is total: stripe raises a
`UnicodeDecodeError` on a non-UTF-8 body, and both raise a `TypeError`
when a non-ASCII signature string reaches the timing-safe comparison.
With an all-ASCII signature header and digest — and, for stripe, a
valid-UTF-8 body and all-ASCII `v1` values — verification returns a
boolean. -/
theorem C7_verify_totality :
    ∀ (hmacHex : String → String → String)
      (hmacB64 : String → List Nat → String) (now : Int)
      (sig secret : Option String) (body : List Nat),
    ((optFalsy sig || optFalsy secret) = true →
       stripeVerify hmacHex now sig secret body = .ok false ∧
       typeformVerify hmacB64 sig secret body = .ok false) ∧
    (isAsciiStr (sig.getD "") = true →
       isAsciiStr ("sha256=" ++ hmacB64 (secret.getD "") body) = true →
       ∃ b, typeformVerify hmacB64 sig secret body = .ok b) ∧
    ((utf8Decode body).isSome = true →
       (∀ sg ∈ (parseSigHeader (sig.getD "")).2, isAsciiStr sg = true) →
       (∀ m, isAsciiStr (hmacHex (secret.getD "") m) = true) →
       ∃ b, stripeVerify hmacHex now sig secret body = .ok b) ∧
    ((optFalsy sig || optFalsy secret) = false →
       isAsciiStr (sig.getD "") = false →
       typeformVerify hmacB64 sig secret body = .error .typeError) := by
  intro hmacHex hmacB64 now sig secret body
  refine ⟨?_, ?_, ?_, ?_⟩
  · intro h
    constructor
    · simp [stripeVerify, h]
    · simp [typeformVerify, h]
  · intro h1 h2
    cases hres : typeformVerify hmacB64 sig secret body with
    | ok b => exact ⟨b, rfl⟩
    | error err =>
      exfalso
      unfold typeformVerify at hres
      split at hres
      · exact Except.noConfusion hres
      · have hres' : pyCompareDigest (sig.getD "")
            ("sha256=" ++ hmacB64 (secret.getD "") body) = .error err :=
          hres
        simp [pyCompareDigest, h1, h2] at hres'
  · intro h hsigs hhex
    obtain ⟨str, hcs⟩ := Option.isSome_iff_exists.mp h
    cases hres : stripeVerify hmacHex now sig secret body with
    | ok b => exact ⟨b, rfl⟩
    | error err =>
      exfalso
      unfold stripeVerify at hres
      rw [hcs] at hres
      split at hres
      · simp at hres
      · split at hres
        · simp at hres
        · split at hres
          · simp at hres
          · split at hres
            · simp at hres
            · have hres' : anyCompareDigest
                  (hmacHex (secret.getD "")
                    ((parseSigHeader (sig.getD "")).1.getD "" ++ "." ++
                      str))
                  (parseSigHeader (sig.getD "")).2 = .error err := hres
              obtain ⟨b, hb⟩ := anyCompareDigest_ok
                (hmacHex (secret.getD "")
                  ((parseSigHeader (sig.getD "")).1.getD "" ++ "." ++
                    str))
                ((parseSigHeader (sig.getD "")).2) (hhex _) hsigs
              rw [hb] at hres'
              exact Except.noConfusion hres'
  · intro hfalse hnascii
    unfold typeformVerify
    split
    · simp_all
    · simp [pyCompareDigest, hnascii]

theorem C7_verify_totality_witness :
    stripeVerify (fun _ _ => "h") 0 none (some "s") [] = .ok false ∧
    (∃ b, typeformVerify (fun _ _ => "x") (some "sha256=x") (some "s") []
      = .ok b) ∧
    (∃ b, stripeVerify (fun _ _ => "h") 0 (some "t=0,v1=x") (some "s")
      [104] = .ok b) ∧
    typeformVerify (fun _ _ => "x") (some "é") (some "s") [] =
      .error .typeError :=
  ⟨((C7_verify_totality (fun _ _ => "h") (fun _ _ => "x") 0 none
       (some "s") []).1 (by decide)).1,
   (C7_verify_totality (fun _ _ => "h") (fun _ _ => "x") 0
       (some "sha256=x") (some "s") []).2.1 (by decide) (by decide),
   (C7_verify_totality (fun _ _ => "h") (fun _ _ => "x") 0
       (some "t=0,v1=x") (some "s") [104]).2.2.1 (by decide) (by decide)
     (fun m => rfl),
   (C7_verify_totality (fun _ _ => "h") (fun _ _ => "x") 0 (some "é")
       (some "s") []).2.2.2 (by decide) (by decide)⟩

/-- Claim C9: stripe's verifier rejects every request whose parsed
signature-header timestamp is more than 300 seconds from `now`,
whatever the HMAC function and whatever the body — the timestamp check
precedes both body decoding and the HMAC comparison. -/
theorem C9_replay_rejected :
    ∀ (hmacHex : String → String → String) (now : Int)
      (header secret : String) (body : List Nat) (ts : String) (tv : Int),
      (parseSigHeader header).1 = some ts →
      pyInt ts = some tv →
      300 < (now - tv).natAbs →
      stripeVerify hmacHex now (some header) (some secret) body =
        .ok false := by
  intro hmacHex now header secret body ts tv hts hint htol
  unfold stripeVerify
  split
  · rfl
  · simp only [Option.getD_some]
    rw [hts]
    split
    · rfl
    · simp only [Option.getD_some, hint]
      rw [if_pos htol]

theorem C9_replay_rejected_witness :
    stripeVerify (fun _ _ => "x") 1000 (some "t=0,v1=x") (some "s")
      [104] = .ok false :=
  C9_replay_rejected (fun _ _ => "x") 1000 "t=0,v1=x" "s" [104] "0" 0
    rfl rfl (by decide)

/-- Claim C8 is false as stated: `normalize_event` is not total on all
payload maps — when an expected sub-object has an unexpected type
(here a string `form_response` or `data`) the normalizer raises an
`AttributeError` instead of returning a canonical event, and a numeric
`created` beyond `datetime`'s year-9999 ceiling makes
`datetime.fromtimestamp` raise. -/
theorem C8_counterexample :
    normalizeTypeform [("form_response", Json.str "x")] =
      .error .attributeError ∧
    normalizeStripe [("data", Json.str "x")] = .error .attributeError ∧
    normalizeStripe [("created", Json.num 253402300800)] =
      .error .valueError :=
  ⟨rfl, rfl, rfl⟩

/-- Claim C8 (amended): `normalize_event` never raises and maps every
missing field to null provided the expected sub-objects
(`form_response` and its `hidden` for typeform; `data`, `data.object`
and its `metadata` for stripe), when present, are JSON objects, and for
stripe the `type` field, when present, is a string and `created` is
null, a bool, or a number within `datetime.fromtimestamp`'s supported
range (years 1-9999, epoch seconds -62135596800..253402300799); on a
sub-object or field of the wrong type — or an out-of-range `created` —
the normalizer raises. A missing stripe `type` maps to `"unknown"`,
not null. -/
theorem C8_normalize_total :
    (∀ (raw : List (String × Json)),
       isObjD ((jlookup raw "form_response").getD (.obj [])) = true →
       isObjD (pyGetD ((jlookup raw "form_response").getD (.obj []))
         "hidden" (.obj [])) = true →
       (normalizeTypeform raw).isOk = true) ∧
    normalizeTypeform [] = .ok typeformNullEvent ∧
    (∀ (raw : List (String × Json)),
       isObjD ((jlookup raw "data").getD (.obj [])) = true →
       isObjD (pyGetD ((jlookup raw "data").getD (.obj [])) "object"
         (.obj [])) = true →
       isObjD (pyGetD (pyGetD ((jlookup raw "data").getD (.obj []))
         "object" (.obj [])) "metadata" (.obj [])) = true →
       isStrD ((jlookup raw "type").getD (.str "unknown")) = true →
       tsOkD ((jlookup raw "created").getD .null) = true →
       (normalizeStripe raw).isOk = true) ∧
    normalizeStripe [] = .ok stripeNullEvent := by
  refine ⟨?_, rfl, ?_, rfl⟩
  · intro raw h1 h2
    cases hfr : (jlookup raw "form_response").getD (.obj []) with
    | obj fs =>
      rw [hfr] at h2
      simp only [pyGetD] at h2
      cases hhid : (jlookup fs "hidden").getD (.obj []) with
      | obj hs =>
        simp only [normalizeTypeform, hfr, hhid, pyDictGet, exceptBind_ok,
          Except.isOk]
        rfl
      | null => rw [hhid] at h2; simp [isObjD] at h2
      | bool b => rw [hhid] at h2; simp [isObjD] at h2
      | num n => rw [hhid] at h2; simp [isObjD] at h2
      | str s => rw [hhid] at h2; simp [isObjD] at h2
      | arr l => rw [hhid] at h2; simp [isObjD] at h2
    | null => rw [hfr] at h1; simp [isObjD] at h1
    | bool b => rw [hfr] at h1; simp [isObjD] at h1
    | num n => rw [hfr] at h1; simp [isObjD] at h1
    | str s => rw [hfr] at h1; simp [isObjD] at h1
    | arr l => rw [hfr] at h1; simp [isObjD] at h1
  · intro raw h1 h2 h3 h4 h5
    cases hda : (jlookup raw "data").getD (.obj []) with
    | obj ds =>
      rw [hda] at h2 h3
      simp only [pyGetD] at h2 h3
      cases hob : (jlookup ds "object").getD (.obj []) with
      | obj os =>
        rw [hob] at h3
        simp only [pyGetD] at h3
        cases hmd : (jlookup os "metadata").getD (.obj []) with
        | obj ms =>
          cases hty : (jlookup raw "type").getD (.str "unknown") with
          | str ets =>
            cases hcr : (jlookup raw "created").getD .null with
            | null =>
              simp only [normalizeStripe, hda, hob, hmd, hty, hcr,
                pyDictGet, exceptBind_ok, tsToIso, pyAsStr, Except.isOk]
              rfl
            | num n =>
              rw [hcr] at h5
              simp only [tsOkD, Bool.and_eq_true, decide_eq_true_eq] at h5
              have htsi : tsToIso (Json.num n) =
                  .ok (.str (epochToIso n)) := by
                simp [tsToIso, h5.1, h5.2]
              simp only [normalizeStripe, hda, hob, hmd, hty, hcr,
                pyDictGet, exceptBind_ok, htsi, pyAsStr, Except.isOk]
              rfl
            | bool b =>
              simp only [normalizeStripe, hda, hob, hmd, hty, hcr,
                pyDictGet, exceptBind_ok, tsToIso, pyAsStr, Except.isOk]
              rfl
            | str s => rw [hcr] at h5; simp [tsOkD] at h5
            | arr l => rw [hcr] at h5; simp [tsOkD] at h5
            | obj f => rw [hcr] at h5; simp [tsOkD] at h5
          | null => rw [hty] at h4; simp [isStrD] at h4
          | bool b => rw [hty] at h4; simp [isStrD] at h4
          | num n => rw [hty] at h4; simp [isStrD] at h4
          | arr l => rw [hty] at h4; simp [isStrD] at h4
          | obj f => rw [hty] at h4; simp [isStrD] at h4
        | null => rw [hmd] at h3; simp [isObjD] at h3
        | bool b => rw [hmd] at h3; simp [isObjD] at h3
        | num n => rw [hmd] at h3; simp [isObjD] at h3
        | str s => rw [hmd] at h3; simp [isObjD] at h3
        | arr l => rw [hmd] at h3; simp [isObjD] at h3
      | null => rw [hob] at h2; simp [isObjD] at h2
      | bool b => rw [hob] at h2; simp [isObjD] at h2
      | num n => rw [hob] at h2; simp [isObjD] at h2
      | str s => rw [hob] at h2; simp [isObjD] at h2
      | arr l => rw [hob] at h2; simp [isObjD] at h2
    | null => rw [hda] at h1; simp [isObjD] at h1
    | bool b => rw [hda] at h1; simp [isObjD] at h1
    | num n => rw [hda] at h1; simp [isObjD] at h1
    | str s => rw [hda] at h1; simp [isObjD] at h1
    | arr l => rw [hda] at h1; simp [isObjD] at h1

theorem C8_normalize_total_witness :
    (normalizeTypeform typeformDemoPayload).isOk = true ∧
    (normalizeStripe stripeDemoPayload).isOk = true :=
  ⟨C8_normalize_total.1 typeformDemoPayload (by decide) (by decide),
   (C8_normalize_total.2.2.1 stripeDemoPayload (by decide) (by decide)
      (by decide) (by decide) (by decide))⟩

/-- Claim C10 is false as stated: when `JOURNEY_SERVICE_URL` is unset,
pydantic falls back to the default `http://localhost:8002` — dispatch
does issue outbound HTTP (three failing calls here, then a DLQ entry),
instead of trivially succeeding. Only an explicitly empty value skips
the call. -/
theorem C10_counterexample :
    loadJourneyUrl none = "http://localhost:8002" ∧
    (dispatchWithRetry (loadJourneyUrl none) (fun _ => false) 3 true 3
        demoStore none 1 9 "err").downstreamCalls = 3 ∧
    ((dispatchWithRetry (loadJourneyUrl none) (fun _ => false) 3 true 3
        demoStore none 1 9 "err").dlq).isSome = true ∧
    ¬ ((3 : Nat) = 0) := ⟨rfl, rfl, rfl, by decide⟩

/-- Claim C10 (amended): when `JOURNEY_SERVICE_URL` is set to the empty
string, every dispatch attempt trivially succeeds without any outbound
HTTP call: the event is marked `processed` on the first attempt, zero
downstream calls are made and no DLQ entry is created. (When the
variable is unset, the setting defaults to `http://localhost:8002` and
outbound HTTP is attempted.) -/
theorem C10_empty_url_dispatch :
    ∀ (httpOk : Nat → Bool) (maxAttempts : Nat) (dlqEnabled : Bool)
      (dlqMaxRetries : Nat) (s : Store) (d : Option DLQEntry)
      (eventId now : Nat) (errMsg : String),
      1 ≤ maxAttempts →
      dispatchWithRetry "" httpOk maxAttempts dlqEnabled dlqMaxRetries s d
          eventId now errMsg =
        { store := markProcessed (markProcessing s eventId) eventId now
          dlq := d
          downstreamCalls := 0
          attemptsUsed := 1 } := by
  intro httpOk maxAttempts dlqEnabled dlqMaxRetries s d eventId now errMsg h
  cases maxAttempts with
  | zero => omega
  | succ n =>
    simp [dispatchWithRetry, attemptLoop, dispatchToJourney]

theorem C10_empty_url_dispatch_witness :
    dispatchWithRetry "" (fun _ => false) 3 true 3 demoStore none 1 9
        "e" =
      { store := markProcessed (markProcessing demoStore 1) 1 9
        dlq := none
        downstreamCalls := 0
        attemptsUsed := 1 } :=
  C10_empty_url_dispatch (fun _ => false) 3 true 3 demoStore none 1 9 "e"
    (by decide)
